import Mathlib

/-!
Verification of the progress-reporting backend (`celery_progress/backend.py`).

The development shallowly embeds the two components of the module:

* the write side, `ProgressRecorder` (`set_progress`, `_percent_float`,
  `_percent_int`, `_est_time`), whose arithmetic CPython performs on IEEE-754
  binary64 floats, modelled here exactly by dyadic rationals in normalized
  mantissa/exponent form (`F64`), with correct round-to-nearest, ties-to-even;

* the read side, `Progress.get_info`, a classification of the externally
  owned job state into a normalized status response.

Python values that can appear in the shared job-result record are modelled by
`PyVal`; times are modelled in integer microseconds (the resolution of
`datetime.datetime`); exceptions are modelled by `Option` (`Option.none` is a
raised exception). The float model has an unbounded exponent: it covers the
normal range of binary64 (no overflow, underflow-to-subnormal, infinities or
NaNs), which is the range every quantity in the claims inhabits.
-/

set_option maxRecDepth 8000

/-- Binary logarithm on naturals, fuel-driven so that it reduces inside the
kernel. One unit of fuel is consumed per halving, so `ilog2Aux n n` computes
the exact floor of the logarithm for every `n ≥ 1`. -/
def ilog2Aux : ℕ → ℕ → ℕ
  | 0, _ => 0
  | fuel + 1, n => if n ≤ 1 then 0 else ilog2Aux fuel (n / 2) + 1

/-- Floor of the binary logarithm (0 at 0). -/
def ilog2 (n : ℕ) : ℕ := ilog2Aux n n

/-- Decide whether `a / b < 2 ^ k` for naturals `a`, `b > 0` and an integer `k`. -/
def ratLt (a b : ℕ) (k : ℤ) : Bool :=
  if 0 ≤ k then decide (a < b * 2 ^ k.toNat) else decide (a * 2 ^ (-k).toNat < b)

/-- An IEEE-754 binary64 value, represented exactly as `m * 2 ^ e`.
Every value produced by the rounding functions below is normalized: either
`m = 0` and `e = 0`, or `2 ^ 52 ≤ |m| < 2 ^ 53`. Normalization makes the
representation unique, so structural equality coincides with value equality
(as used by Python's `==` on floats). -/
structure F64 where
  m : ℤ
  e : ℤ
deriving DecidableEq, Repr

/-- Round the rational `n / d` to the nearest binary64 value (round half to
even), returning the normalized representation. Total; the `d = 0` case is
unreachable from the guarded call sites that model Python division. -/
def roundRat (n d : ℤ) : F64 :=
  if n = 0 ∨ d = 0 then ⟨0, 0⟩
  else
    let sgn : ℤ := if (0 < n ∧ 0 < d) ∨ (n < 0 ∧ d < 0) then 1 else -1
    let a : ℕ := n.natAbs
    let b : ℕ := d.natAbs
    let e0 : ℤ := (ilog2 a : ℤ) - (ilog2 b : ℤ)
    let e : ℤ := if ratLt a b e0 then e0 - 1 else e0
    let N : ℕ := if 0 ≤ 52 - e then a * 2 ^ (52 - e).toNat else a
    let D : ℕ := if 0 ≤ 52 - e then b else b * 2 ^ (e - 52).toNat
    let q : ℕ := N / D
    let r : ℕ := N % D
    let m : ℕ :=
      if 2 * r < D then q
      else if D < 2 * r then q + 1
      else if q % 2 = 0 then q else q + 1
    if m = 2 ^ 53 then ⟨sgn * 2 ^ 52, e - 51⟩ else ⟨sgn * (m : ℤ), e - 52⟩

/-- Round the exact dyadic value `m * 2 ^ e` to the nearest binary64 value. -/
def roundDy (m e : ℤ) : F64 :=
  if 0 ≤ e then roundRat (m * 2 ^ e.toNat) 1 else roundRat m (2 ^ (-e).toNat)

/-- The binary64 value of a Python int: `float(n)`, correctly rounded. -/
def F64.ofInt (n : ℤ) : F64 := roundRat n 1

/-- Binary64 multiplication: the exact product, rounded. -/
def floatMul (a b : F64) : F64 := roundDy (a.m * b.m) (a.e + b.e)

/-- Binary64 subtraction: the exact difference, rounded. -/
def floatSub (a b : F64) : F64 :=
  let e := min a.e b.e
  roundDy (a.m * 2 ^ (a.e - e).toNat - b.m * 2 ^ (b.e - e).toNat) e

/-- Binary64 division. `Option.none` models Python's `ZeroDivisionError`. -/
def floatDiv (a b : F64) : Option F64 :=
  if b.m = 0 then Option.none
  else if 0 ≤ a.e - b.e then some (roundRat (a.m * 2 ^ (a.e - b.e).toNat) b.m)
  else some (roundRat a.m (b.m * 2 ^ (b.e - a.e).toNat))

/-- Python's true division of two ints (`current / total`), which CPython
rounds correctly to binary64. `Option.none` models `ZeroDivisionError`. -/
def floatDivInt (n d : ℤ) : Option F64 :=
  if d = 0 then Option.none else some (roundRat n d)

/-- Nearest integer to `n / d` for a natural `d > 0`, ties to even. -/
def rhalfEvenQuot (n : ℤ) (d : ℕ) : ℤ :=
  let q := Int.fdiv n d
  let r := n - q * d
  if 2 * r < d then q
  else if (d : ℤ) < 2 * r then q + 1
  else if q % 2 = 0 then q else q + 1

/-- Python's `round(x, 2)` on a float: CPython rounds the exact decimal value
of the double to two fractional digits (ties to even) and returns the nearest
binary64 value of the result. -/
def pyRound2 (x : F64) : F64 :=
  let cents : ℤ :=
    if 0 ≤ x.e then x.m * 100 * 2 ^ x.e.toNat
    else rhalfEvenQuot (x.m * 100) (2 ^ (-x.e).toNat)
  roundRat cents 100

/-- Python's `int(x)` on a float: truncation toward zero. -/
def truncF (x : F64) : ℤ :=
  if 0 ≤ x.e then x.m * 2 ^ x.e.toNat
  else
    let q : ℕ := x.m.natAbs / 2 ^ (-x.e).toNat
    if 0 ≤ x.m then (q : ℤ) else -(q : ℤ)

/-- The `seconds` field of a Python `timedelta` of `us` microseconds:
`timedelta` normalizes to days / seconds / microseconds with
`0 ≤ seconds < 86400` (floor semantics, whole days carried into `days`).
Used to model `(curr_time - start_time).seconds`. -/
def tdSecondsField (us : ℤ) : ℤ := Int.fdiv (Int.emod us 86400000000) 1000000

/-- A Python value as stored in the shared job-result record: `None`, a bool,
an int, a float, a string, a `datetime` (microseconds since the epoch), or a
string-keyed dict (insertion-ordered, as in Python). -/
inductive PyVal where
  | none : PyVal
  | bool (b : Bool) : PyVal
  | int (n : ℤ) : PyVal
  | float (f : F64) : PyVal
  | str (s : String) : PyVal
  | time (us : ℤ) : PyVal
  | dict (entries : List (String × PyVal)) : PyVal

/-- Python's `x is None` test. -/
def PyVal.isNone : PyVal → Bool
  | PyVal.none => true
  | _ => false

/-- Python's `str(v)` for the scalar values that the reader stringifies.
`str` is the identity on strings, which is the only case any theorem below
evaluates; the rendering of datetimes, dicts and the float shortest-digit
repr algorithm are abbreviated, faithfully to arity but not to spelling. -/
def pyStr : PyVal → String
  | PyVal.none => "None"
  | PyVal.bool true => "True"
  | PyVal.bool false => "False"
  | PyVal.int n => toString n
  | PyVal.float f => toString f.m ++ "e" ++ toString f.e
  | PyVal.str s => s
  | PyVal.time us => "datetime(" ++ toString us ++ ")"
  | PyVal.dict _ => "dict(...)"

/-- Python's `s[0:n]` on a string (slicing by code points). -/
def strTake (s : String) (n : ℕ) : String := String.mk (s.data.take n)

/-- The custom state tag `PROGRESS_STATE = 'PROGRESS'` (backend.py line 11). -/
def PROGRESS_STATE : String := "PROGRESS"

/-- `_get_completed_progress()` (backend.py lines 174-183). -/
def get_completed_progress : PyVal :=
  PyVal.dict [("pending", PyVal.bool false), ("current", PyVal.int 100),
    ("total", PyVal.int 100), ("percent", PyVal.float (F64.ofInt 100)),
    ("percent_int", PyVal.int 100), ("start_time", PyVal.none),
    ("est_time_remaining_s", PyVal.int 0)]

/-- `_get_unknown_progress(state)` (backend.py lines 186-195). The `state`
parameter is accepted and ignored, exactly as in the source. -/
def get_unknown_progress (state : String) : PyVal :=
  PyVal.dict [("pending", PyVal.bool false), ("current", PyVal.int 0),
    ("total", PyVal.int 100), ("percent", PyVal.none),
    ("percent_int", PyVal.none), ("start_time", PyVal.none),
    ("est_time_remaining_s", PyVal.none)]

/-- `_get_pending_progress(state)` (backend.py lines 198-207). The `state`
parameter is accepted and ignored, exactly as in the source. -/
def get_pending_progress (state : String) : PyVal :=
  PyVal.dict [("pending", PyVal.bool true), ("current", PyVal.int 0),
    ("total", PyVal.int 100), ("percent", PyVal.float (F64.ofInt (-1))),
    ("percent_int", PyVal.int (-1)), ("start_time", PyVal.none),
    ("est_time_remaining_s", PyVal.int (-1))]

/-- `ProgressRecorder._percent_float` (backend.py lines 52-56):
`0.0` when `current == 0 or total == 0`; otherwise
`float(round((current / total) * 100.0, 2))`, replaced by `1.0` when that
equals `0` while `current > 0`. `Option.none` models a raised exception
(unreachable here: the division is guarded). -/
def percent_float (current total : ℤ) : Option F64 :=
  if current = 0 ∨ total = 0 then some (F64.ofInt 0)
  else
    match floatDivInt current total with
    | Option.none => Option.none
    | some p =>
      let percent := pyRound2 (floatMul p (F64.ofInt 100))
      some (if percent = F64.ofInt 0 ∧ 0 < current then F64.ofInt 1 else percent)

/-- `ProgressRecorder._percent_int` (backend.py lines 58-62):
`0` when `current == 0 or total == 0`; otherwise
`int((current / total) * 100.0)`, replaced by `1` when that equals `0` while
`current > 0`. `Option.none` models a raised exception (unreachable here). -/
def percent_int (current total : ℤ) : Option ℤ :=
  if current = 0 ∨ total = 0 then some 0
  else
    match floatDivInt current total with
    | Option.none => Option.none
    | some p =>
      let percent := truncF (floatMul p (F64.ofInt 100))
      some (if percent = 0 ∧ 0 < current then 1 else percent)

/-- `ProgressRecorder._est_time` (backend.py lines 64-73). `datetime.now()`
is made an explicit parameter `now_us`; the recorder's `self.start_time` is
`start_us` (both in microseconds). The source computes
`diff_s = float((now - start_time).seconds)` — the `seconds` field of the
timedelta, not its total duration — then
`int(diff_s * (100.0 / perc) - diff_s)` with `perc = (current / total) * 100.0`
in binary64. `Option.none` models a raised exception (the two divisions; both
are unreachable in the modelled normal-range arithmetic once
`current ≠ 0 ∧ total ≠ 0`). -/
def est_time (current total : ℤ) (start_us now_us : ℤ) : Option ℤ :=
  if current = 0 ∨ total = 0 then some (-1)
  else
    let diff_seconds : ℤ := tdSecondsField (now_us - start_us)
    let diff_s : F64 := F64.ofInt diff_seconds
    match floatDivInt current total with
    | Option.none => Option.none
    | some p =>
      let perc := floatMul p (F64.ofInt 100)
      match floatDiv (F64.ofInt 100) perc with
      | Option.none => Option.none
      | some ratio => some (truncF (floatSub (floatMul diff_s ratio) diff_s))

/-- `ProgressRecorder.set_progress` (backend.py lines 34-50): builds the meta
document (a dict in the source's insertion order) and returns
`(state, meta)` with `state = PROGRESS_STATE`. The `task.update_state` side
effect stores exactly this pair in the externally owned job-result record;
the reader theorems wire the pair into a result handle explicitly.
`Option.none` propagates a raised exception from the helpers. -/
def set_progress (current total : ℤ) (description : String)
    (start_us now_us : ℤ) : Option (String × PyVal) :=
  match percent_float current total with
  | Option.none => Option.none
  | some pf =>
    match percent_int current total with
    | Option.none => Option.none
    | some pi =>
      match est_time current total start_us now_us with
      | Option.none => Option.none
      | some est =>
        some (PROGRESS_STATE,
          PyVal.dict [("pending", PyVal.bool false), ("current", PyVal.int current),
            ("total", PyVal.int total), ("percent", PyVal.float pf),
            ("percent_int", PyVal.int pi), ("description", PyVal.str description),
            ("start_time", PyVal.time start_us),
            ("est_time_remaining_s", PyVal.int est)])

/-- Formula asserted by the amended claim C4: the estimate equals the
binary64 evaluation of `elapsed * (100.0 / percent) - elapsed` truncated to
an integer, where `percent` is the binary64 value of
`(current / total) * 100.0` and `elapsed` is the `seconds` component of
`now - start_time` — whole seconds with whole days discarded, not the full
span of the difference. -/
def est_time_formula (current total : ℤ) (start_us now_us : ℤ) : Option ℤ :=
  let elapsed : ℤ := tdSecondsField (now_us - start_us)
  let elapsed_f : F64 := F64.ofInt elapsed
  match floatDivInt current total with
  | Option.none => Option.none
  | some p =>
    let percent := floatMul p (F64.ofInt 100)
    match floatDiv (F64.ofInt 100) percent with
    | Option.none => Option.none
    | some ratio => some (truncF (floatSub (floatMul elapsed_f ratio) elapsed_f))

/-- The job-result record fetched by `self.result._get_task_meta()`:
`status` (the raw state tag), `result` (the stored info/result payload, also
what the celery `AsyncResult.result` property returns), and `traceback`
(`task_meta.get("traceback")`, absent modelled as `Option.none`). -/
structure TaskMeta where
  status : String
  result : PyVal
  traceback : Option String

/-- The job-result handle (`AsyncResult` or a object mimicking it) that
`Progress` wraps: an id and the record the backend holds for it. -/
structure ResultHandle where
  id : String
  taskMeta : TaskMeta

/-- Celery's `AsyncResult.successful()`: whether the state is `SUCCESS`. -/
def ResultHandle.successful (h : ResultHandle) : Bool :=
  h.taskMeta.status == "SUCCESS"

/-- Celery's `AsyncResult.get(...)`, called only under `successful()`: yields
the stored result payload (materialized inside `allow_join_result()`). -/
def ResultHandle.getValue (h : ResultHandle) : PyVal :=
  h.taskMeta.result

/-- One record emitted to the module logger. -/
structure LogEntry where
  level : String
  msg : String

/-- The status response built by `Progress.get_info`: the `state` key plus
the keys added by the branch taken (`result` is absent in the branches that
do not set it). -/
structure StatusResponse where
  state : String
  complete : Bool
  success : Option Bool
  progress : PyVal
  result : Option PyVal

/-- Whether the first character list is an initial segment of the second. -/
def charsMatchBegin : List Char → List Char → Bool
  | [], _ => true
  | _ :: _, [] => false
  | p :: ps, c :: cs => p == c && charsMatchBegin ps cs

/-- Python's `int(...)` on a run of ASCII digits. -/
def digitsToNat (ds : List Char) : ℕ :=
  List.foldl (fun a c => 10 * a + (c.toNat - 48)) 0 ds

/-- One attempted match of the pattern `Retry in \d{1,10}s` at the start of
`cs`. The regex engine's greedy `\d{1,10}` with backtracking succeeds at a
position exactly when the maximal digit run after the literal `"Retry in "`
has length between 1 and 10 and is followed by `'s'` (shorter digit choices
are always followed by another digit, never by `'s'`). `\d` is modelled as
the ASCII digits. -/
def matchRetryAt (cs : List Char) : Option ℕ :=
  if charsMatchBegin "Retry in ".data cs then
    let rest := cs.drop 9
    let run := rest.takeWhile Char.isDigit
    if run.length = 0 then Option.none
    else if 10 < run.length then Option.none
    else
      match (rest.drop run.length).head? with
      | some c => if c = 's' then some (digitsToNat run) else Option.none
      | Option.none => Option.none
  else Option.none

/-- `re.search("Retry in \d{1,10}s", traceback)` followed by
`int(match.group()[9:-1])` (backend.py lines 110-112): the leftmost match
wins, and slicing off the 9-character literal head and the trailing `'s'`
leaves exactly the digit run. -/
def findRetrySeconds : List Char → Option ℕ
  | [] => Option.none
  | c :: cs =>
    match matchRetryAt (c :: cs) with
    | some n => some n
    | Option.none => findRetrySeconds cs

/-- The value bound to `"next_retry_seconds"` in the RETRY branch: the parsed
integer if the pattern occurs in the traceback, else the string `"Unknown"`
(backend.py lines 110-114). -/
def retrySecondsVal (traceback : String) : PyVal :=
  match findRetrySeconds traceback.data with
  | some n => PyVal.int (n : ℤ)
  | Option.none => PyVal.str "Unknown"

/-- `Progress.get_info` (backend.py lines 84-152), a function of the handle's
externally owned record. `Option.none` models an uncaught exception escaping
`get_info`; the only raise site is the RETRY branch, where
`re.search(pattern, None)` raises `TypeError` when the stored traceback is
absent. The returned list holds the records written to the module logger
(`logger.error(...)` with printf-style `%s` interpolation). -/
def get_info (h : ResultHandle) :
    Option (StatusResponse × List LogEntry) :=
  let state := h.taskMeta.status
  let info := h.taskMeta.result
  if (h.taskMeta.result).isNone then
    some ({ state := state, complete := true, success := Option.none,
            progress := get_unknown_progress state, result := Option.none }, [])
  else if state = "SUCCESS" ∨ state = "FAILURE" then
    let success := h.successful
    some ({ state := state, complete := true, success := some success,
            progress := get_completed_progress,
            result := some (if success then h.getValue
                            else PyVal.str (pyStr info)) }, [])
  else if state = "RETRY" ∨ state = "REVOKED" then
    if state = "RETRY" then
      match h.taskMeta.traceback with
      | Option.none => Option.none
      | some tb =>
        some ({ state := state, complete := true, success := some false,
                progress := get_completed_progress,
                result := some (PyVal.dict
                  [("next_retry_seconds", retrySecondsVal tb),
                   ("message",
                    PyVal.str (strTake (pyStr info) 50 ++ "..."))]) }, [])
    else
      some ({ state := state, complete := true, success := some false,
              progress := get_completed_progress,
              result := some (PyVal.str ("Task " ++ pyStr info)) }, [])
  else if state = "IGNORED" then
    some ({ state := state, complete := true, success := Option.none,
            progress := get_completed_progress,
            result := some (PyVal.str (pyStr info)) }, [])
  else if state = PROGRESS_STATE then
    some ({ state := state, complete := false, success := Option.none,
            progress := info, result := Option.none }, [])
  else if state = "PENDING" ∨ state = "STARTED" then
    some ({ state := state, complete := false, success := Option.none,
            progress := get_pending_progress state, result := Option.none }, [])
  else
    some ({ state := state, complete := true, success := some false,
            progress := get_unknown_progress state,
            result := some (PyVal.str ("Unknown state " ++ state)) },
          [{ level := "error",
             msg := "Task " ++ h.id ++ " has unknown state " ++ state ++
                    " with metadata " ++ pyStr info }])

/-! ### Concrete fixtures used by witnesses and counterexamples -/

/-- A handle whose stored payload is absent while its raw state is `RETRY`. -/
def c1Handle : ResultHandle := ⟨"task-1", ⟨"RETRY", PyVal.none, Option.none⟩⟩

/-- A `PENDING` job as celery actually reports it: no stored payload. -/
def c2Handle : ResultHandle := ⟨"task-2", ⟨"PENDING", PyVal.none, Option.none⟩⟩

/-- A `STARTED` job with a non-null stored payload. -/
def c2bHandle : ResultHandle := ⟨"task-2b", ⟨"STARTED", PyVal.str "started", Option.none⟩⟩

/-- A `RETRY` job whose stored result text is 60 characters long and whose
traceback has no retry-delay pattern in it. -/
def c5LongHandle : ResultHandle :=
  ⟨"task-5x", ⟨"RETRY",
    PyVal.str "aaaaaaaaaaaaaaaaaaaaaaaaaaaaaaaaaaaaaaaaaaaaaaaaaaaaaaaaaaaa",
    some "no retry hint here"⟩⟩

/-- A `RETRY` job whose traceback announces a retry in 30 seconds. -/
def c5Handle : ResultHandle :=
  ⟨"task-5", ⟨"RETRY", PyVal.str "boom", some "Traceback: ... Retry in 30s"⟩⟩

/-- A job in an unrecognized state with a non-null payload. -/
def c6Handle : ResultHandle := ⟨"task-6", ⟨"WEIRD", PyVal.str "boom", Option.none⟩⟩

/-- A `RETRY` job with a non-null payload but no stored traceback. -/
def c10Handle : ResultHandle := ⟨"task-10", ⟨"RETRY", PyVal.str "exc", Option.none⟩⟩

/-! ### Claims

Status responses are written with the anonymous constructor, in field order
`state`, `complete`, `success`, `progress`, `result`. -/

/-- The unknown-progress document, spelled out (definitionally equal to
`get_unknown_progress s` for every `s`). -/
def unknownDoc : PyVal :=
  PyVal.dict [("pending", PyVal.bool false), ("current", PyVal.int 0),
    ("total", PyVal.int 100), ("percent", PyVal.none),
    ("percent_int", PyVal.none), ("start_time", PyVal.none),
    ("est_time_remaining_s", PyVal.none)]

/-- The pending-progress document, spelled out (definitionally equal to
`get_pending_progress s` for every `s`). -/
def pendingDoc : PyVal :=
  PyVal.dict [("pending", PyVal.bool true), ("current", PyVal.int 0),
    ("total", PyVal.int 100), ("percent", PyVal.float (F64.ofInt (-1))),
    ("percent_int", PyVal.int (-1)), ("start_time", PyVal.none),
    ("est_time_remaining_s", PyVal.int (-1))]

/-- C1: whenever the stored result payload is `None`, `get_info` returns
`complete = true`, `success = null`, the unknown-progress document and no
`result` field — and it does so before any state-based classification, for
every raw state tag. -/
theorem C1_absent_payload_unknown_response (h : ResultHandle)
    (hres : h.taskMeta.result = PyVal.none) :
    get_info h =
      some (⟨h.taskMeta.status, true, Option.none, unknownDoc, Option.none⟩, []) := by
  obtain ⟨i, st, res, tb⟩ := h
  cases hres
  rfl

/-- C1 witness: at a concrete handle in state `RETRY` with an absent payload
the unknown-shape response is returned (in particular, the `RETRY` branch —
which would raise on this handle's null traceback — is never reached). -/
theorem C1_absent_payload_unknown_response_witness :
    c1Handle.taskMeta.result = PyVal.none ∧
    get_info c1Handle =
      some (⟨"RETRY", true, Option.none, unknownDoc, Option.none⟩, []) :=
  ⟨rfl, C1_absent_payload_unknown_response c1Handle rfl⟩

/-- C2 counterexample: a handle in state `PENDING` whose stored payload is
`None` (the situation celery actually produces for a pending job) is
answered with `complete = true` and the unknown-progress document — not with
`complete = false` and the pending-progress document as the claim states. -/
theorem C2_pending_counterexample :
    get_info c2Handle =
      some (⟨"PENDING", true, Option.none, get_unknown_progress "PENDING",
        Option.none⟩, []) ∧
    get_unknown_progress "PENDING" ≠ get_pending_progress "PENDING" := by
  refine ⟨rfl, ?_⟩
  simp [get_unknown_progress, get_pending_progress]

/-- C2 (amended): for every handle whose state is `PENDING` or `STARTED`
and whose stored result payload is non-null, `get_info` returns
`complete = false`, `success = null` and the pending-progress document
(`pending = true, current = 0, total = 100, percent = -1.0,
percent_int = -1, start_time = null, est_time_remaining_s = -1`). -/
theorem C2_pending_states_response (h : ResultHandle)
    (hstate : h.taskMeta.status = "PENDING" ∨ h.taskMeta.status = "STARTED")
    (hres : h.taskMeta.result ≠ PyVal.none) :
    get_info h =
      some (⟨h.taskMeta.status, false, Option.none, pendingDoc, Option.none⟩, []) := by
  obtain ⟨i, st, res, tb⟩ := h
  rcases hstate with hst | hst <;> cases hst <;>
    cases res <;> first | exact absurd rfl hres | rfl

/-- C2 witness: the amended claim at a concrete `STARTED` handle carrying a
non-null payload. -/
theorem C2_pending_states_response_witness :
    get_info c2bHandle =
      some (⟨"STARTED", false, Option.none, pendingDoc, Option.none⟩, []) :=
  C2_pending_states_response c2bHandle (Or.inr rfl) (fun hcon => PyVal.noConfusion hcon)

/-- C3: the claim asserts `percent_int = floor(current/total*100)` for
`0 < current < total`, but the source computes
`int((current / total) * 100.0)` in binary64: at `current = 29`,
`total = 100` the product rounds to `28.999999999999996` (the double
`8162774324609023 * 2 ^ (-48)`) and truncates to `28`, not the exact
`floor(29 * 100 / 100) = 29`. The claim's concrete instance
`set_progress(1, 1000000)` yielding `percent_int = 1` does hold. -/
theorem C3_percent_int_float_slip :
    percent_int 29 100 = some 28 ∧ percent_int 1 1000000 = some 1 := by
  constructor <;> decide

/-- C4 counterexample: with `current = 1`, `total = 2`, a start time of 0 and
a now of 86410 seconds (1 day and 10 seconds) later, the whole number of
seconds between now and the start time is 86410, so the claim's formula
gives `trunc(86410 * (100 / 50) - 86410) = 86410`; the code instead feeds
`diff_time.seconds = 10` (whole days are dropped by the `seconds` field)
into the same arithmetic and returns 10. -/
theorem C4_est_time_counterexample :
    est_time 1 2 0 86410000000 = some 10 ∧
    Int.fdiv (86410000000 - 0) 1000000 = 86410 ∧ (10 : ℤ) ≠ 86410 :=
  ⟨by decide, by decide, by decide⟩

/-- C4 (amended): for `current > 0` and `total > 0` the estimate equals the
binary64 evaluation of `elapsed * (100 / percent) - elapsed` truncated
toward zero, where `percent` is the binary64 value of
`(current / total) * 100.0` and `elapsed` is the seconds component of
`now - start_time` (whole seconds, whole days discarded); when
`current == 0 or total == 0` it is `-1`. -/
theorem C4_est_time_seconds_component (current total start_us now_us : ℤ) :
    (0 < current → 0 < total →
      est_time current total start_us now_us =
        est_time_formula current total start_us now_us) ∧
    ((current = 0 ∨ total = 0) →
      est_time current total start_us now_us = some (-1)) := by
  constructor
  · intro hc ht
    unfold est_time est_time_formula
    rw [if_neg]
    push_neg
    exact ⟨hc.ne', ht.ne'⟩
  · intro h
    unfold est_time
    rw [if_pos h]

/-- C4 witness: the amended claim instantiated at `current = 1`,
`total = 2`, `start = 0`, `now = 10` seconds, where both sides evaluate to
10 remaining seconds. -/
theorem C4_est_time_seconds_component_witness :
    (0 : ℤ) < 1 ∧ (0 : ℤ) < 2 ∧
    est_time 1 2 0 10000000 = est_time_formula 1 2 0 10000000 ∧
    est_time 1 2 0 10000000 = some 10 :=
  ⟨by decide, by decide,
    (C4_est_time_seconds_component 1 2 0 10000000).1 (by decide) (by decide),
    by decide⟩

/-- C5 counterexample: in the `RETRY` branch the message is
`str(result)[0:50] + "..."`, so for a 60-character stored result text the
returned message has 53 characters — more than the 50 the claim allows. -/
theorem C5_retry_message_counterexample :
    get_info c5LongHandle =
      some (⟨"RETRY", true, some false, get_completed_progress,
        some (PyVal.dict [("next_retry_seconds", PyVal.str "Unknown"),
          ("message",
           PyVal.str "aaaaaaaaaaaaaaaaaaaaaaaaaaaaaaaaaaaaaaaaaaaaaaaaaa...")])⟩,
        []) ∧
    ("aaaaaaaaaaaaaaaaaaaaaaaaaaaaaaaaaaaaaaaaaaaaaaaaaa..." : String).length = 53 :=
  ⟨rfl, rfl⟩

/-- C5 (amended): for every handle in state `RETRY` with a non-null payload
and a present traceback, `get_info` returns `complete = true`,
`success = false`, the completed-progress document and a result dict whose
`next_retry_seconds` is the integer parsed from the first occurrence of the
pattern `Retry in <N>s` in the traceback (the string `"Unknown"` when the
pattern is absent), and whose `message` is the first 50 characters of the
stored result text followed by `"..."` (hence up to 53 characters). -/
theorem C5_retry_response (h : ResultHandle) (tb : String)
    (hstate : h.taskMeta.status = "RETRY")
    (hres : h.taskMeta.result ≠ PyVal.none)
    (htb : h.taskMeta.traceback = some tb) :
    get_info h =
      some (⟨"RETRY", true, some false, get_completed_progress,
        some (PyVal.dict
          [("next_retry_seconds", retrySecondsVal tb),
           ("message",
            PyVal.str (strTake (pyStr h.taskMeta.result) 50 ++ "..."))])⟩, []) := by
  obtain ⟨i, st, res, tb'⟩ := h
  cases hstate
  cases htb
  cases res <;> first | exact absurd rfl hres | rfl

/-- C5 witness: a traceback containing `Retry in 30s` yields
`next_retry_seconds = 30`, and the 4-character result text `"boom"` yields
the message `"boom..."`. -/
theorem C5_retry_response_witness :
    get_info c5Handle =
      some (⟨"RETRY", true, some false, get_completed_progress,
        some (PyVal.dict [("next_retry_seconds", PyVal.int 30),
          ("message", PyVal.str "boom...")])⟩, []) :=
  C5_retry_response c5Handle "Traceback: ... Retry in 30s" rfl
    (fun hcon => PyVal.noConfusion hcon) rfl

/-- C6: for every handle with a non-null payload whose state is none of the
eight recognized tags, `get_info` does not raise: it returns
`complete = true`, `success = false`, the unknown-progress document and the
result string `"Unknown state " ++ state`, and logs one error record naming
the job id, the state and the stringified info. -/
theorem C6_unknown_state_response (h : ResultHandle)
    (hres : h.taskMeta.result ≠ PyVal.none)
    (hstate : h.taskMeta.status ∉ ["SUCCESS", "FAILURE", "RETRY", "REVOKED",
      "IGNORED", "PROGRESS", "PENDING", "STARTED"]) :
    get_info h =
      some (⟨h.taskMeta.status, true, some false, unknownDoc,
        some (PyVal.str ("Unknown state " ++ h.taskMeta.status))⟩,
        [⟨"error",
          "Task " ++ h.id ++ " has unknown state " ++ h.taskMeta.status ++
          " with metadata " ++ pyStr h.taskMeta.result⟩]) := by
  obtain ⟨i, st, res, tb⟩ := h
  simp only [List.mem_cons, List.not_mem_nil, or_false, not_or] at hstate
  obtain ⟨h1, h2, h3, h4, h5, h6, h7, h8⟩ := hstate
  cases res <;>
    first
      | exact absurd rfl hres
      | simp [get_info, PyVal.isNone, PROGRESS_STATE, ResultHandle.successful,
          unknownDoc, get_unknown_progress, pyStr,
          h1, h2, h3, h4, h5, h6, h7, h8]

/-- C6 witness: a concrete handle in the made-up state `WEIRD`. -/
theorem C6_unknown_state_response_witness :
    get_info c6Handle =
      some (⟨"WEIRD", true, some false, unknownDoc,
        some (PyVal.str "Unknown state WEIRD")⟩,
        [⟨"error", "Task task-6 has unknown state WEIRD with metadata boom"⟩]) :=
  C6_unknown_state_response c6Handle (fun hcon => PyVal.noConfusion hcon) (by decide)

/-- C7: the round trip — any meta document written by `set_progress`, read
back through a handle whose state is `PROGRESS` and whose stored payload is
that document, is returned verbatim as the `progress` field, with
`complete = false` and `success = null`. -/
theorem C7_progress_roundtrip (current total : ℤ) (description : String)
    (start_us now_us : ℤ) (st : String) (meta : PyVal) (h : ResultHandle)
    (hsp : set_progress current total description start_us now_us = some (st, meta))
    (hstate : h.taskMeta.status = "PROGRESS")
    (hres : h.taskMeta.result = meta) :
    get_info h =
      some (⟨"PROGRESS", false, Option.none, meta, Option.none⟩, []) := by
  obtain ⟨i, hst, res, tb⟩ := h
  cases hstate
  cases hres
  unfold set_progress at hsp
  rcases hpf : percent_float current total with _ | pf <;> rw [hpf] at hsp
  · exact absurd hsp (by simp)
  rcases hpi : percent_int current total with _ | pi <;> rw [hpi] at hsp
  · exact absurd hsp (by simp)
  rcases hest : est_time current total start_us now_us with _ | est <;> rw [hest] at hsp
  · exact absurd hsp (by simp)
  injection hsp with hpair
  have h2 := congrArg Prod.snd hpair
  simp only at h2
  cases h2
  rfl

/-- C7 witness: the round trip at `set_progress 1 2 "" 0 10000000`
(half done after ten seconds: percent 50.0, ten seconds remaining). -/
theorem C7_progress_roundtrip_witness :
    get_info (⟨"task-7", ⟨"PROGRESS",
      PyVal.dict [("pending", PyVal.bool false), ("current", PyVal.int 1),
        ("total", PyVal.int 2), ("percent", PyVal.float (F64.ofInt 50)),
        ("percent_int", PyVal.int 50), ("description", PyVal.str ""),
        ("start_time", PyVal.time 0), ("est_time_remaining_s", PyVal.int 10)],
      Option.none⟩⟩ : ResultHandle) =
    some (⟨"PROGRESS", false, Option.none,
      PyVal.dict [("pending", PyVal.bool false), ("current", PyVal.int 1),
        ("total", PyVal.int 2), ("percent", PyVal.float (F64.ofInt 50)),
        ("percent_int", PyVal.int 50), ("description", PyVal.str ""),
        ("start_time", PyVal.time 0), ("est_time_remaining_s", PyVal.int 10)],
      Option.none⟩, []) :=
  C7_progress_roundtrip 1 2 "" 0 10000000 "PROGRESS" _ _ rfl rfl rfl

/-- C8: whenever `current == 0 or total == 0`, every helper short-circuits
before its division — `some` meaning no exception, in particular no
`ZeroDivisionError`, is possible — and the written document carries
`percent = 0.0`, `percent_int = 0` and `est_time_remaining_s = -1`. -/
theorem C8_zero_guard (current total : ℤ) (description : String) (start_us now_us : ℤ)
    (h : current = 0 ∨ total = 0) :
    percent_float current total = some (F64.ofInt 0) ∧
    percent_int current total = some 0 ∧
    est_time current total start_us now_us = some (-1) ∧
    set_progress current total description start_us now_us =
      some (PROGRESS_STATE, PyVal.dict [("pending", PyVal.bool false),
        ("current", PyVal.int current), ("total", PyVal.int total),
        ("percent", PyVal.float (F64.ofInt 0)), ("percent_int", PyVal.int 0),
        ("description", PyVal.str description), ("start_time", PyVal.time start_us),
        ("est_time_remaining_s", PyVal.int (-1))]) := by
  have hpf : percent_float current total = some (F64.ofInt 0) := by
    unfold percent_float; rw [if_pos h]
  have hpi : percent_int current total = some 0 := by
    unfold percent_int; rw [if_pos h]
  have hest : est_time current total start_us now_us = some (-1) := by
    unfold est_time; rw [if_pos h]
  refine ⟨hpf, hpi, hest, ?_⟩
  unfold set_progress
  rw [hpf, hpi, hest]

/-- C8 witness: the guard at the claim's two inputs, `set_progress(0, 0)`
and `set_progress(5, 0)`. -/
theorem C8_zero_guard_witness :
    set_progress 0 0 "" 0 0 =
      some (PROGRESS_STATE, PyVal.dict [("pending", PyVal.bool false),
        ("current", PyVal.int 0), ("total", PyVal.int 0),
        ("percent", PyVal.float (F64.ofInt 0)), ("percent_int", PyVal.int 0),
        ("description", PyVal.str ""), ("start_time", PyVal.time 0),
        ("est_time_remaining_s", PyVal.int (-1))]) ∧
    set_progress 5 0 "" 0 0 =
      some (PROGRESS_STATE, PyVal.dict [("pending", PyVal.bool false),
        ("current", PyVal.int 5), ("total", PyVal.int 0),
        ("percent", PyVal.float (F64.ofInt 0)), ("percent_int", PyVal.int 0),
        ("description", PyVal.str ""), ("start_time", PyVal.time 0),
        ("est_time_remaining_s", PyVal.int (-1))]) :=
  ⟨(C8_zero_guard 0 0 "" 0 0 (Or.inl rfl)).2.2.2,
   (C8_zero_guard 5 0 "" 0 0 (Or.inr rfl)).2.2.2⟩

/-- C9: the unknown- and pending-progress constructors ignore their state
argument — any two state strings produce identical documents, so no
information from the state tag flows into these sentinels. -/
theorem C9_sentinel_docs_ignore_state (s1 s2 : String) :
    get_unknown_progress s1 = get_unknown_progress s2 ∧
    get_pending_progress s1 = get_pending_progress s2 :=
  ⟨rfl, rfl⟩

/-- C10: in state `RETRY` with a non-null payload but an absent traceback,
`get_info` raises (`re.search` is applied to `None`) instead of returning a
status response — modelled by `Option.none`. -/
theorem C10_retry_null_traceback_raises (h : ResultHandle)
    (hstate : h.taskMeta.status = "RETRY")
    (hres : h.taskMeta.result ≠ PyVal.none)
    (htb : h.taskMeta.traceback = Option.none) :
    get_info h = Option.none := by
  obtain ⟨i, st, res, tb⟩ := h
  cases hstate
  cases htb
  cases res <;> first | exact absurd rfl hres | rfl

/-- C10 witness: a concrete `RETRY` handle with payload `"exc"` and no
traceback makes `get_info` raise. -/
theorem C10_retry_null_traceback_raises_witness :
    get_info c10Handle = Option.none :=
  C10_retry_null_traceback_raises c10Handle rfl
    (fun hcon => PyVal.noConfusion hcon) rfl
